import Mathlib

/-!
Verification of the registry endpoint resolver
(`lookupV2Endpoints` in `src/registry/service_v2.go`).

The function is embedded shallowly.  The collaborators it calls that live
outside `src/` — Go's `url.Parse`, the repository's `newTLSConfig`,
`isSecureIndex` and `allowNondistributableArtifacts`, and the constants
`DefaultV2Registry` and `tlsconfig.ServerDefault()` — are kept abstract:
they are fields of an environment record (`Env`) and of the configuration
record (`ServiceConfig`), so every theorem below quantifies over their
behaviour unless a stated hypothesis pins part of it down.
-/

namespace RegistryV2

/-- A parsed URL, the relevant projection of Go's `url.URL`
(only the fields this core reads or writes). -/
structure URL where
  scheme : String
  host : String
  path : String := ""
deriving DecidableEq, Repr

/-- The relevant projection of `tls.Config`: the `InsecureSkipVerify` flag,
which is the only field the resolver inspects, plus an opaque payload
standing for the rest of the configuration (certificates, etc.), so that
"same `TLSConfig` value" is not collapsed to "same flag". -/
structure TLSConfig where
  insecureSkipVerify : Bool
  payload : Nat := 0
deriving DecidableEq, Repr

/-- Errors surfaced by resolution.  `invalidParam` is the wrapper the
resolver applies to URL-parse failures (`invalidParam(err)` in the source);
`configuration` carries an error propagated verbatim from the
TLS-configuration collaborator. -/
inductive Err where
  | invalidParam (msg : String)
  | configuration (msg : String)
deriving DecidableEq, Repr

/-- The output record, the relevant projection of `APIEndpoint`
(`Version` is the numeric API version, `2` for `APIVersion2`). -/
structure APIEndpoint where
  url : URL
  version : Nat
  mirror : Bool := false
  official : Bool := false
  trimHostname : Bool := false
  allowNondistributableArtifacts : Bool := false
  tlsConfig : TLSConfig
deriving DecidableEq, Repr

/-- The registry configuration visible to the resolver: the ordered mirror
list (`s.config.Mirrors`) and, kept abstract, the two classification
collaborators `isSecureIndex(s.config, ·)` and
`allowNondistributableArtifacts(s.config, ·)`. -/
structure ServiceConfig where
  mirrors : List String
  secureIndex : String → Bool
  allowNondistributable : String → Bool

/-- The external collaborators from outside `src/`, kept abstract:
`url.Parse` (a parse failure is reported as a message string),
`newTLSConfig(host, secure)` (its failure message is propagated),
`tlsconfig.ServerDefault()` and `DefaultV2Registry`. -/
structure Env where
  urlParse : String → Except String URL
  newTLSConfig : String → Bool → Except String TLSConfig
  serverDefault : TLSConfig
  defaultV2Registry : URL

/-- Modelled from the spec: the reserved default-namespace sentinel hostname
(the constant `DefaultNamespace`, defined in the repository outside `src/`). -/
def DefaultNamespace : String := "docker.io"

/-- Modelled from the spec: the reserved index-hostname sentinel
(the constant `IndexHostname`, defined in the repository outside `src/`). -/
def IndexHostname : String := "index.docker.io"

/-- Go's `strings.HasPrefix`, translated at the character level. -/
def goHasPrefix (s pre : String) : Bool :=
  pre.data.isPrefixOf s.data

/-- The mirror-address normalisation step of `lookupV2Endpoints`:
`if !strings.HasPrefix(mirror, "http://") && !strings.HasPrefix(mirror, "https://") { mirror = "https://" + mirror }`. -/
def normalizeMirror (mirror : String) : String :=
  if ¬ goHasPrefix mirror "http://" ∧ ¬ goHasPrefix mirror "https://" then
    "https://" ++ mirror
  else
    mirror

/-- The per-mirror body of the loop in `lookupV2Endpoints`: normalise the
address, parse it (wrapping a failure in `invalidParam`), build its TLS
configuration, and produce the mirror descriptor. -/
def resolveMirror (env : Env) (cfg : ServiceConfig) (mirror : String) :
    Except Err APIEndpoint :=
  match env.urlParse (normalizeMirror mirror) with
  | .error e => .error (.invalidParam e)
  | .ok mirrorURL =>
    match env.newTLSConfig mirrorURL.host (cfg.secureIndex mirrorURL.host) with
    | .error e => .error (.configuration e)
    | .ok mirrorTLSConfig =>
      .ok { url := mirrorURL
            version := 2
            mirror := true
            trimHostname := true
            tlsConfig := mirrorTLSConfig }

/-- The mirror loop of `lookupV2Endpoints`: descriptors accumulate in
configured order; the first failure aborts with a `nil` list, exactly as
the source's `return nil, err`. -/
def resolveMirrors (env : Env) (cfg : ServiceConfig) :
    List String → List APIEndpoint × Option Err
  | [] => ([], none)
  | mirror :: rest =>
    match resolveMirror env cfg mirror with
    | .error e => ([], some e)
    | .ok ep =>
      match resolveMirrors env cfg rest with
      | (_, some e) => ([], some e)
      | (tail, none) => (ep :: tail, none)

/-- The hard-coded official-registry descriptor appended after the mirrors. -/
def officialEndpoint (env : Env) : APIEndpoint :=
  { url := env.defaultV2Registry
    version := 2
    official := true
    trimHostname := true
    tlsConfig := env.serverDefault }

/-- `lookupV2Endpoints` from `src/registry/service_v2.go`.  The Go function
returns the pair `(endpoints, err)`; every error path returns the `nil`
list, modelled by `[]`. -/
def lookupV2Endpoints (env : Env) (cfg : ServiceConfig) (hostname : String) :
    List APIEndpoint × Option Err :=
  if hostname = DefaultNamespace ∨ hostname = IndexHostname then
    match resolveMirrors env cfg cfg.mirrors with
    | (_, some e) => ([], some e)
    | (mirrorEndpoints, none) =>
      (mirrorEndpoints ++ [officialEndpoint env], none)
  else
    match env.newTLSConfig hostname (cfg.secureIndex hostname) with
    | .error e => ([], some (.configuration e))
    | .ok tlsConfig =>
      let ana := cfg.allowNondistributable hostname
      let httpsEndpoint : APIEndpoint :=
        { url := { scheme := "https", host := hostname }
          version := 2
          allowNondistributableArtifacts := ana
          trimHostname := true
          tlsConfig := tlsConfig }
      if tlsConfig.insecureSkipVerify then
        (httpsEndpoint ::
          [{ url := { scheme := "http", host := hostname }
             version := 2
             allowNondistributableArtifacts := ana
             trimHostname := true
             tlsConfig := tlsConfig }], none)
      else
        ([httpsEndpoint], none)

/-- Modelled from the spec: the contract of the out-of-`src/` TLS builder
`newTLSConfig` — "returns a configuration whose skip-verification flag is
the logical negation of `secure`". -/
def Env.TLSContract (env : Env) : Prop :=
  ∀ host secure tls, env.newTLSConfig host secure = .ok tls →
    tls.insecureSkipVerify = !secure

/-! Concrete instances used to exercise the theorems on closed inputs. -/

/-- A minimal concrete URL parser for test configurations: it accepts only
addresses with an explicit `http://` or `https://` prefix (the only shape
the resolver feeds it after normalisation) and splits off the scheme. -/
def testParse (s : String) : Except String URL :=
  if goHasPrefix s "https://" then
    if (s.drop 8).data.contains '[' then .error "invalid host"
    else .ok { scheme := "https", host := s.drop 8 }
  else if goHasPrefix s "http://" then
    if (s.drop 7).data.contains '[' then .error "invalid host"
    else .ok { scheme := "http", host := s.drop 7 }
  else
    .error "missing scheme"

/-- A concrete TLS builder satisfying `Env.TLSContract`. -/
def testTLS (host : String) (secure : Bool) : Except String TLSConfig :=
  if host = "badcert.test" then .error "bad certificate"
  else .ok { insecureSkipVerify := !secure }

/-- A concrete collaborator environment for closed-input checks. -/
def testEnv : Env :=
  { urlParse := testParse
    newTLSConfig := testTLS
    serverDefault := { insecureSkipVerify := false, payload := 7 }
    defaultV2Registry := { scheme := "https", host := "registry-1.docker.io" } }

/-- A concrete configuration: one mirror, every host insecure except
`secure.test`. -/
def testCfg : ServiceConfig :=
  { mirrors := ["mirror.local"]
    secureIndex := fun h => h = "secure.test"
    allowNondistributable := fun h => h = "legacy.test" }

/-- The configuration with a malformed mirror address. -/
def badCfg : ServiceConfig := { testCfg with mirrors := ["http://["] }

/-- The configuration with a plaintext (`http://`) mirror address. -/
def httpCfg : ServiceConfig :=
  { testCfg with mirrors := ["http://mirror.test"] }

/-- The first endpoint of the `docker.io` resolution under `testEnv`. -/
def wMirrorEp : APIEndpoint :=
  { url := { scheme := "https", host := "mirror.local" }
    version := 2
    mirror := true
    trimHostname := true
    tlsConfig := { insecureSkipVerify := true } }

/-- A second configuration, syntactically different from `testCfg` but
agreeing with it pointwise. -/
def testCfg2 : ServiceConfig :=
  { mirrors := ["mirror" ++ ".local"]
    secureIndex := fun h => if h = "secure.test" then true else false
    allowNondistributable := fun h => h = "legacy.test" }

/-- A second environment, syntactically different from `testEnv` but
agreeing with it pointwise. -/
def testEnv2 : Env :=
  { urlParse := fun s => testParse s
    newTLSConfig := testTLS
    serverDefault := { insecureSkipVerify := false, payload := 3 + 4 }
    defaultV2Registry := { scheme := "https", host := "registry-1.docker.io" } }

/-! Helper lemmas about the mirror loop. -/

/-- On failure the mirror loop returns the `nil` list, never a partial one. -/
theorem resolveMirrors_error_nil (env : Env) (cfg : ServiceConfig) :
    ∀ ms es e, resolveMirrors env cfg ms = (es, some e) → es = [] := by
  intro ms
  induction ms with
  | nil =>
    intro es e h
    simp [resolveMirrors] at h
  | cons m rest ih =>
    intro es e h
    unfold resolveMirrors at h
    split at h
    · simp at h
      exact h.1
    · split at h
      · simp at h
        exact h.1
      · simp at h

/-- On success the mirror loop produces exactly one descriptor per
configured mirror, in order, each the result of `resolveMirror`. -/
theorem resolveMirrors_ok (env : Env) (cfg : ServiceConfig) :
    ∀ ms es, resolveMirrors env cfg ms = (es, none) →
      List.Forall₂ (fun m ep => resolveMirror env cfg m = .ok ep) ms es := by
  intro ms
  induction ms with
  | nil =>
    intro es h
    simp [resolveMirrors] at h
    simp [← h]
  | cons m rest ih =>
    intro es h
    unfold resolveMirrors at h
    split at h
    · simp at h
    · split at h
      · simp at h
      · simp at h
        rw [← h]
        exact List.Forall₂.cons (by assumption) (ih _ (by assumption))

/-- Shape of every descriptor built for a mirror. -/
theorem resolveMirror_shape (env : Env) (cfg : ServiceConfig)
    (m : String) (ep : APIEndpoint) (h : resolveMirror env cfg m = .ok ep) :
    ep.mirror = true ∧ ep.official = false ∧ ep.trimHostname = true := by
  unfold resolveMirror at h
  split at h
  · simp at h
  · split at h
    · simp at h
    · simp at h
      simp [← h]

/-- Every descriptor produced by a successful mirror loop is a mirror
descriptor and never the official one. -/
theorem resolveMirrors_mem_shape (env : Env) (cfg : ServiceConfig)
    {ms : List String} {es : List APIEndpoint}
    (h : resolveMirrors env cfg ms = (es, none)) :
    ∀ ep ∈ es, ep.mirror = true ∧ ep.official = false ∧ ep.trimHostname = true := by
  have hf := resolveMirrors_ok env cfg ms es h
  clear h
  induction hf with
  | nil => simp
  | cons h₁ _ ih =>
    intro ep hep
    rcases List.mem_cons.mp hep with rfl | hmem
    · exact resolveMirror_shape _ _ _ _ h₁
    · exact ih ep hmem

/-- Every error path of the resolver returns the `nil` endpoint list. -/
theorem lookup_error_nil (env : Env) (cfg : ServiceConfig) (hostname : String) :
    ∀ es e, lookupV2Endpoints env cfg hostname = (es, some e) → es = [] := by
  intro es e h
  unfold lookupV2Endpoints at h
  split at h
  · split at h
    · simp at h
      exact h.1
    · simp at h
  · split at h
    · simp at h
      exact h.1
    · split at h <;> simp at h

/-- C6: for every hostname and configuration, the resolver returns a
non-empty list exactly when it returns no error: an empty success and a
partial list alongside an error are both impossible. -/
theorem lookup_nonempty_iff_no_error (env : Env) (cfg : ServiceConfig)
    (hostname : String) :
    (lookupV2Endpoints env cfg hostname).1 ≠ [] ↔
      (lookupV2Endpoints env cfg hostname).2 = none := by
  unfold lookupV2Endpoints
  split
  · split <;> simp
  · split
    · simp
    · split <;> simp

/-- C7: in every successfully returned list, no descriptor has `Mirror`
and `Official` both true, and each of the two flags forces
`TrimHostname = true`. -/
theorem lookup_mirror_official_exclusive (env : Env) (cfg : ServiceConfig)
    (hostname : String) :
    ∀ ep ∈ (lookupV2Endpoints env cfg hostname).1,
      ¬(ep.mirror = true ∧ ep.official = true) ∧
      ((ep.mirror = true ∨ ep.official = true) → ep.trimHostname = true) := by
  intro ep hep
  unfold lookupV2Endpoints at hep
  split at hep
  · split at hep
    · simp at hep
    · rename_i mes hmes
      simp only [List.mem_append, List.mem_singleton] at hep
      rcases hep with h1 | h1
      · have hshape := resolveMirrors_mem_shape env cfg hmes ep h1
        simp [hshape.1, hshape.2.1, hshape.2.2]
      · subst h1
        simp [officialEndpoint]
  · split at hep
    · simp at hep
    · split at hep <;>
        (simp only [List.mem_cons, List.mem_singleton, List.not_mem_nil,
          or_false] at hep) <;>
        (rcases hep with rfl | rfl <;> simp)

/-- C2: for a sentinel hostname, a successful result has one endpoint per
configured mirror plus a final official one: the length is
`mirrors.length + 1`, the last element has `Official = true`, and every
earlier element is a mirror descriptor (so no mirror receives a plaintext
fallback: each configured mirror contributes exactly one endpoint). -/
theorem lookup_sentinel_length_official (env : Env) (cfg : ServiceConfig)
    (hostname : String)
    (hsent : hostname = DefaultNamespace ∨ hostname = IndexHostname)
    (hok : (lookupV2Endpoints env cfg hostname).2 = none) :
    (lookupV2Endpoints env cfg hostname).1.length = cfg.mirrors.length + 1 ∧
    ((lookupV2Endpoints env cfg hostname).1.getLast?.map (fun ep => ep.official)
      = some true) ∧
    (∀ ep ∈ (lookupV2Endpoints env cfg hostname).1.dropLast,
      ep.mirror = true) := by
  unfold lookupV2Endpoints at hok ⊢
  rw [if_pos hsent] at hok ⊢
  split at hok
  · simp at hok
  · rename_i mes hres
    dsimp only
    have hlen := (resolveMirrors_ok env cfg cfg.mirrors mes hres).length_eq
    refine ⟨?_, ?_, ?_⟩
    · simp [hlen]
    · rw [List.getLast?_concat mes]
      simp [officialEndpoint]
    · intro ep hep
      rw [List.dropLast_concat] at hep
      exact (resolveMirrors_mem_shape env cfg hres ep hep).1

/-- C4: for a sentinel hostname, a successful result is exactly the list
of per-mirror descriptors in configured order followed by the single
official descriptor: the i-th endpoint is the one `resolveMirror` builds
from the i-th configured mirror address. -/
theorem lookup_sentinel_mirror_order (env : Env) (cfg : ServiceConfig)
    (hostname : String)
    (hsent : hostname = DefaultNamespace ∨ hostname = IndexHostname)
    (hok : (lookupV2Endpoints env cfg hostname).2 = none) :
    ∃ mes, (lookupV2Endpoints env cfg hostname).1
        = mes ++ [officialEndpoint env] ∧
      mes.length = cfg.mirrors.length ∧
      ∀ (i : ℕ) (h₁ : i < cfg.mirrors.length) (h₂ : i < mes.length),
        resolveMirror env cfg (cfg.mirrors.get ⟨i, h₁⟩)
          = .ok (mes.get ⟨i, h₂⟩) := by
  unfold lookupV2Endpoints at hok ⊢
  rw [if_pos hsent] at hok ⊢
  split at hok
  · simp at hok
  · rename_i mes hres
    dsimp only
    have hf := resolveMirrors_ok env cfg cfg.mirrors mes hres
    exact ⟨mes, rfl, hf.length_eq.symm, fun i h₁ h₂ => hf.get h₁ h₂⟩

/-- If the mirror loop succeeds on a prefix of the list and the next
mirror fails, the whole loop fails with that error and the `nil` list. -/
theorem resolveMirrors_append_error (env : Env) (cfg : ServiceConfig)
    (pre : List String) (m : String) (post : List String) :
    ∀ mes, resolveMirrors env cfg pre = (mes, none) →
    ∀ e, resolveMirror env cfg m = .error e →
    resolveMirrors env cfg (pre ++ m :: post) = ([], some e) := by
  induction pre with
  | nil =>
    intro mes hpre e hm
    simp only [List.nil_append]
    unfold resolveMirrors
    rw [hm]
  | cons p ps ih =>
    intro mes hpre e hm
    simp only [resolveMirrors] at hpre
    simp only [List.cons_append, resolveMirrors]
    cases hp : resolveMirror env cfg p with
    | error e2 =>
      rw [hp] at hpre
      simp at hpre
    | ok ep =>
      rw [hp] at hpre
      simp only [hp]
      cases hps : resolveMirrors env cfg ps with
      | mk tail err =>
        rw [hps] at hpre
        cases err with
        | some e2 => simp at hpre
        | none =>
          rw [List.append_eq, ih tail hps e hm]

/-- C5: for a sentinel hostname, once the mirrors before `m` resolve, a
parse failure on `m` aborts the whole resolution with an
`invalidParam`-wrapped error and the `nil` list, a TLS-builder failure on
`m` aborts it with that error and the `nil` list, and in general no error
outcome ever carries a partial list. -/
theorem lookup_mirror_error_aborts (env : Env) (cfg : ServiceConfig)
    (hostname : String)
    (hsent : hostname = DefaultNamespace ∨ hostname = IndexHostname)
    (pre : List String) (m : String) (post : List String)
    (hms : cfg.mirrors = pre ++ m :: post)
    (mes : List APIEndpoint)
    (hpre : resolveMirrors env cfg pre = (mes, none)) :
    (∀ perr, env.urlParse (normalizeMirror m) = .error perr →
      lookupV2Endpoints env cfg hostname = ([], some (.invalidParam perr))) ∧
    (∀ u terr, env.urlParse (normalizeMirror m) = .ok u →
      env.newTLSConfig u.host (cfg.secureIndex u.host) = .error terr →
      lookupV2Endpoints env cfg hostname = ([], some (.configuration terr))) ∧
    (∀ es e, lookupV2Endpoints env cfg hostname = (es, some e) → es = []) := by
  refine ⟨?_, ?_, lookup_error_nil env cfg hostname⟩
  · intro perr hparse
    have hm : resolveMirror env cfg m = .error (.invalidParam perr) := by
      unfold resolveMirror
      rw [hparse]
    have hall := resolveMirrors_append_error env cfg pre m post mes hpre _ hm
    unfold lookupV2Endpoints
    rw [if_pos hsent, hms, hall]
  · intro u terr hparse htls
    have hm : resolveMirror env cfg m = .error (.configuration terr) := by
      simp only [resolveMirror, hparse, htls]
    have hall := resolveMirrors_append_error env cfg pre m post mes hpre _ hm
    unfold lookupV2Endpoints
    rw [if_pos hsent, hms, hall]

/-- C1: for a custom hostname, a successful result always starts with the
`https` descriptor for that hostname; the result has two elements exactly
when the resolved TLS configuration has `InsecureSkipVerify` set, the
second descriptor then being the `http` one sharing the same
`AllowNondistributableArtifacts` and `TLSConfig` values; under the
TLS-builder contract, a hostname classified secure yields exactly one
descriptor and one classified insecure exactly two. -/
theorem lookup_custom_https_first (env : Env) (cfg : ServiceConfig)
    (hostname : String)
    (h1 : hostname ≠ DefaultNamespace) (h2 : hostname ≠ IndexHostname)
    (hcontract : env.TLSContract)
    (hok : (lookupV2Endpoints env cfg hostname).2 = none) :
    ∃ e1, (lookupV2Endpoints env cfg hostname).1.head? = some e1 ∧
      e1.url = { scheme := "https", host := hostname } ∧
      ((lookupV2Endpoints env cfg hostname).1.length = 2 ↔
        e1.tlsConfig.insecureSkipVerify = true) ∧
      (cfg.secureIndex hostname = true →
        (lookupV2Endpoints env cfg hostname).1 = [e1]) ∧
      (cfg.secureIndex hostname = false →
        ∃ e2, (lookupV2Endpoints env cfg hostname).1 = [e1, e2] ∧
          e2.url = { scheme := "http", host := hostname } ∧
          e2.allowNondistributableArtifacts
            = e1.allowNondistributableArtifacts ∧
          e2.tlsConfig = e1.tlsConfig) := by
  unfold lookupV2Endpoints at hok ⊢
  rw [if_neg (not_or.mpr ⟨h1, h2⟩)] at hok ⊢
  split at hok
  · simp at hok
  · rename_i tls hT
    dsimp only
    have hflag := hcontract hostname (cfg.secureIndex hostname) tls hT
    by_cases hins : tls.insecureSkipVerify = true
    · rw [if_pos hins]
      refine ⟨_, rfl, rfl, ?_, ?_, ?_⟩
      · simp [hins]
      · intro hsec
        rw [hsec] at hflag
        simp [hflag] at hins
      · intro _
        exact ⟨_, rfl, rfl, rfl, rfl⟩
    · rw [if_neg hins]
      refine ⟨_, rfl, rfl, ?_, ?_, ?_⟩
      · simp
        simpa using hins
      · intro _
        rfl
      · intro hsec
        rw [hsec] at hflag
        simp at hflag
        exact absurd hflag hins

/-- C9: a configured mirror address that already starts with `http://` is
not rewritten to `https`: the descriptor built for it keeps the parsed
plaintext URL, so a `Mirror = true` endpoint with scheme `http` can appear
in the sentinel-hostname result. -/
theorem lookup_http_mirror_kept (env : Env) (cfg : ServiceConfig)
    (hostname m : String) (u : URL) (tls : TLSConfig)
    (hsent : hostname = DefaultNamespace ∨ hostname = IndexHostname)
    (hms : cfg.mirrors = [m])
    (hpre : goHasPrefix m "http://" = true)
    (hu : env.urlParse m = .ok u)
    (hscheme : u.scheme = "http")
    (htls : env.newTLSConfig u.host (cfg.secureIndex u.host) = .ok tls) :
    normalizeMirror m = m ∧
    lookupV2Endpoints env cfg hostname =
      ([{ url := u, version := 2, mirror := true, trimHostname := true,
          tlsConfig := tls }, officialEndpoint env], none) ∧
    ((lookupV2Endpoints env cfg hostname).1.head?.map
        (fun ep => ep.url.scheme) = some "http") := by
  have hnorm : normalizeMirror m = m := by
    simp [normalizeMirror, hpre]
  have hmir : resolveMirror env cfg m = .ok
      { url := u, version := 2, mirror := true, trimHostname := true,
        tlsConfig := tls } := by
    unfold resolveMirror
    rw [hnorm, hu]
    dsimp only
    rw [htls]
  have hlook : lookupV2Endpoints env cfg hostname =
      ([{ url := u, version := 2, mirror := true, trimHostname := true,
          tlsConfig := tls }, officialEndpoint env], none) := by
    unfold lookupV2Endpoints
    rw [if_pos hsent, hms]
    simp only [resolveMirrors, hmir]
    simp
  refine ⟨hnorm, hlook, ?_⟩
  rw [hlook]
  simp [hscheme]

/-- C10: a custom hostname never produces an `invalidParam` error: the
hostname lands verbatim in every descriptor's URL `Host` field without
being parsed, and the only possible failure in this branch is one
propagated from the TLS-configuration collaborator. -/
theorem lookup_custom_no_invalid_param (env : Env) (cfg : ServiceConfig)
    (hostname : String)
    (h1 : hostname ≠ DefaultNamespace) (h2 : hostname ≠ IndexHostname) :
    (∀ msg,
      (lookupV2Endpoints env cfg hostname).2 ≠ some (.invalidParam msg)) ∧
    (∀ e, (lookupV2Endpoints env cfg hostname).2 = some e →
      ∃ msg, e = .configuration msg ∧
        env.newTLSConfig hostname (cfg.secureIndex hostname) = .error msg) ∧
    (∀ ep ∈ (lookupV2Endpoints env cfg hostname).1,
      ep.url.host = hostname) := by
  unfold lookupV2Endpoints
  rw [if_neg (not_or.mpr ⟨h1, h2⟩)]
  cases hT : env.newTLSConfig hostname (cfg.secureIndex hostname) with
  | error e =>
    dsimp only
    refine ⟨?_, ?_, ?_⟩
    · intro msg h
      simp at h
    · intro e' h
      simp at h
      exact ⟨e, h.symm, rfl⟩
    · intro ep hep
      simp at hep
  | ok tls =>
    dsimp only
    split
    · refine ⟨?_, ?_, ?_⟩
      · intro msg h
        simp at h
      · intro e' h
        simp at h
      · intro ep hep
        simp only [List.mem_cons, List.not_mem_nil, or_false] at hep
        rcases hep with rfl | rfl <;> rfl
    · refine ⟨?_, ?_, ?_⟩
      · intro msg h
        simp at h
      · intro e' h
        simp at h
      · intro ep hep
        simp only [List.mem_cons, List.not_mem_nil, or_false] at hep
        subst hep
        rfl

/-- Appending on the left always leaves that left part as a prefix. -/
theorem goHasPrefix_append (pre m : String) :
    goHasPrefix (pre ++ m) pre = true := by
  unfold goHasPrefix
  rw [String.data_append]
  simp

/-- Normalisation leaves an address already carrying `https://` alone. -/
theorem normalizeMirror_https_fixed (m : String) :
    normalizeMirror ("https://" ++ m) = "https://" ++ m := by
  unfold normalizeMirror
  rw [if_neg]
  intro h
  exact h.2 (goHasPrefix_append "https://" m)

/-- `resolveMirror` depends on the mirror address only through
`normalizeMirror`. -/
theorem resolveMirror_congr (env : Env) (cfg : ServiceConfig) (m m' : String)
    (hmm : normalizeMirror m = normalizeMirror m') :
    resolveMirror env cfg m = resolveMirror env cfg m' := by
  unfold resolveMirror
  rw [hmm]

/-- The mirror list component of the configuration does not influence the
per-mirror computation. -/
theorem resolveMirror_mirrors_irrel (env : Env) (cfg : ServiceConfig)
    (X : List String) (m : String) :
    resolveMirror env { cfg with mirrors := X } m = resolveMirror env cfg m :=
  rfl

/-- The mirror list component of the configuration does not influence the
loop applied to an explicit list of addresses. -/
theorem resolveMirrors_mirrors_irrel (env : Env) (cfg : ServiceConfig)
    (X : List String) :
    ∀ ms, resolveMirrors env { cfg with mirrors := X } ms
      = resolveMirrors env cfg ms := by
  intro ms
  induction ms with
  | nil => rfl
  | cons m rest ih =>
    simp only [resolveMirrors, resolveMirror_mirrors_irrel, ih]

/-- Replacing one mirror address by another with the same normalisation
leaves the whole loop unchanged. -/
theorem resolveMirrors_congr_mirror (env : Env) (cfg : ServiceConfig)
    (m m' : String) (hmm : normalizeMirror m = normalizeMirror m')
    (pre post : List String) :
    resolveMirrors env cfg (pre ++ m :: post)
      = resolveMirrors env cfg (pre ++ m' :: post) := by
  induction pre with
  | nil =>
    simp only [List.nil_append, resolveMirrors]
    rw [resolveMirror_congr env cfg m m' hmm]
  | cons p ps ih =>
    simp only [List.cons_append, resolveMirrors]
    rw [List.append_eq, List.append_eq, ih]

/-- C3: the resolver prefixes a mirror address with `https://` exactly when
the address carries no explicit scheme prefix (neither `http://` nor
`https://`), and resolution of a configuration containing a scheme-less
mirror address is identical to resolution with that address replaced by the
same string prefixed with `https://`. -/
theorem mirror_https_normalization (env : Env) (cfg : ServiceConfig)
    (hostname m : String)
    (hnoscheme : goHasPrefix m "http://" = false ∧
      goHasPrefix m "https://" = false)
    (pre post : List String) (hms : cfg.mirrors = pre ++ m :: post) :
    normalizeMirror m = "https://" ++ m ∧
    (∀ m', goHasPrefix m' "http://" = true ∨ goHasPrefix m' "https://" = true →
      normalizeMirror m' = m') ∧
    lookupV2Endpoints env cfg hostname =
      lookupV2Endpoints env
        { cfg with mirrors := pre ++ ("https://" ++ m) :: post } hostname := by
  have hnorm : normalizeMirror m = "https://" ++ m := by
    simp [normalizeMirror, hnoscheme.1, hnoscheme.2]
  refine ⟨hnorm, ?_, ?_⟩
  · intro m' hm'
    unfold normalizeMirror
    rw [if_neg]
    rcases hm' with h | h
    · exact fun hc => hc.1 h
    · exact fun hc => hc.2 h
  · have hmm : normalizeMirror m = normalizeMirror ("https://" ++ m) := by
      rw [hnorm, normalizeMirror_https_fixed]
    unfold lookupV2Endpoints
    split
    · dsimp only
      rw [hms,
        resolveMirrors_mirrors_irrel env cfg (pre ++ ("https://" ++ m) :: post),
        resolveMirrors_congr_mirror env cfg m ("https://" ++ m) hmm pre post]
    · rfl

/-- C8: resolution is a pure function of the configuration snapshot: two
calls whose mirror lists and collaborator results agree pointwise return
structurally identical results. -/
theorem lookup_deterministic (env₁ env₂ : Env) (cfg₁ cfg₂ : ServiceConfig)
    (hostname : String)
    (hmir : cfg₁.mirrors = cfg₂.mirrors)
    (hsec : ∀ h, cfg₁.secureIndex h = cfg₂.secureIndex h)
    (hana : ∀ h, cfg₁.allowNondistributable h = cfg₂.allowNondistributable h)
    (hparse : ∀ s, env₁.urlParse s = env₂.urlParse s)
    (htls : ∀ h b, env₁.newTLSConfig h b = env₂.newTLSConfig h b)
    (hdef : env₁.serverDefault = env₂.serverDefault)
    (hreg : env₁.defaultV2Registry = env₂.defaultV2Registry) :
    lookupV2Endpoints env₁ cfg₁ hostname
      = lookupV2Endpoints env₂ cfg₂ hostname := by
  have hcfg : cfg₁ = cfg₂ := by
    cases cfg₁
    cases cfg₂
    simp only [ServiceConfig.mk.injEq]
    exact ⟨hmir, funext hsec, funext hana⟩
  have henv : env₁ = env₂ := by
    cases env₁
    cases env₂
    simp only [Env.mk.injEq]
    exact ⟨funext hparse, funext (fun h => funext (htls h)), hdef, hreg⟩
  rw [hcfg, henv]

/-! Closed-input instantiations of the theorems that carry hypotheses. -/

/-- The concrete TLS builder satisfies the modelled contract. -/
theorem testEnv_contract : testEnv.TLSContract := by
  intro host secure tls h
  simp only [testEnv, testTLS] at h
  split at h
  · simp at h
  · simp only [Except.ok.injEq] at h
    rw [← h]

/-- Closed-input instantiation of C1 at the insecure host `custom.test`. -/
theorem lookup_custom_https_first_witness :
    ("custom.test" ≠ DefaultNamespace ∧ "custom.test" ≠ IndexHostname ∧
      testEnv.TLSContract ∧
      (lookupV2Endpoints testEnv testCfg "custom.test").2 = none) ∧
    (∃ e1, (lookupV2Endpoints testEnv testCfg "custom.test").1.head?
        = some e1 ∧
      e1.url = { scheme := "https", host := "custom.test" } ∧
      ((lookupV2Endpoints testEnv testCfg "custom.test").1.length = 2 ↔
        e1.tlsConfig.insecureSkipVerify = true) ∧
      (testCfg.secureIndex "custom.test" = true →
        (lookupV2Endpoints testEnv testCfg "custom.test").1 = [e1]) ∧
      (testCfg.secureIndex "custom.test" = false →
        ∃ e2, (lookupV2Endpoints testEnv testCfg "custom.test").1
            = [e1, e2] ∧
          e2.url = { scheme := "http", host := "custom.test" } ∧
          e2.allowNondistributableArtifacts
            = e1.allowNondistributableArtifacts ∧
          e2.tlsConfig = e1.tlsConfig)) :=
  ⟨⟨by decide, by decide, testEnv_contract, by decide⟩,
    lookup_custom_https_first testEnv testCfg "custom.test" (by decide)
      (by decide) testEnv_contract (by decide)⟩

/-- Closed-input instantiation of C2 at the sentinel `docker.io`. -/
theorem lookup_sentinel_length_official_witness :
    (("docker.io" = DefaultNamespace ∨ "docker.io" = IndexHostname) ∧
      (lookupV2Endpoints testEnv testCfg "docker.io").2 = none) ∧
    ((lookupV2Endpoints testEnv testCfg "docker.io").1.length
        = testCfg.mirrors.length + 1 ∧
      ((lookupV2Endpoints testEnv testCfg "docker.io").1.getLast?.map
        (fun ep => ep.official) = some true) ∧
      (∀ ep ∈ (lookupV2Endpoints testEnv testCfg "docker.io").1.dropLast,
        ep.mirror = true)) :=
  ⟨⟨by decide, by decide⟩,
    lookup_sentinel_length_official testEnv testCfg "docker.io" (by decide)
      (by decide)⟩

/-- Closed-input instantiation of C3 at the scheme-less mirror
`mirror.local`. -/
theorem mirror_https_normalization_witness :
    ((goHasPrefix "mirror.local" "http://" = false ∧
       goHasPrefix "mirror.local" "https://" = false) ∧
      testCfg.mirrors = [] ++ "mirror.local" :: []) ∧
    (normalizeMirror "mirror.local" = "https://" ++ "mirror.local" ∧
     (∀ m', goHasPrefix m' "http://" = true ∨
        goHasPrefix m' "https://" = true → normalizeMirror m' = m') ∧
     lookupV2Endpoints testEnv testCfg "docker.io" =
       lookupV2Endpoints testEnv
         { testCfg with mirrors := [] ++ ("https://" ++ "mirror.local") :: [] }
         "docker.io") :=
  ⟨⟨by decide, by decide⟩,
    mirror_https_normalization testEnv testCfg "docker.io" "mirror.local"
      (by decide) [] [] (by decide)⟩

/-- Closed-input instantiation of C4 at the sentinel `index.docker.io`. -/
theorem lookup_sentinel_mirror_order_witness :
    (("index.docker.io" = DefaultNamespace ∨
        "index.docker.io" = IndexHostname) ∧
      (lookupV2Endpoints testEnv testCfg "index.docker.io").2 = none) ∧
    (∃ mes, (lookupV2Endpoints testEnv testCfg "index.docker.io").1
        = mes ++ [officialEndpoint testEnv] ∧
      mes.length = testCfg.mirrors.length ∧
      ∀ (i : ℕ) (h₁ : i < testCfg.mirrors.length) (h₂ : i < mes.length),
        resolveMirror testEnv testCfg (testCfg.mirrors.get ⟨i, h₁⟩)
          = .ok (mes.get ⟨i, h₂⟩)) :=
  ⟨⟨by decide, by decide⟩,
    lookup_sentinel_mirror_order testEnv testCfg "index.docker.io"
      (by decide) (by decide)⟩

/-- Closed-input instantiation of C5 at the malformed mirror address. -/
theorem lookup_mirror_error_aborts_witness :
    (("docker.io" = DefaultNamespace ∨ "docker.io" = IndexHostname) ∧
      badCfg.mirrors = [] ++ "http://[" :: [] ∧
      resolveMirrors testEnv badCfg [] = ([], none)) ∧
    ((∀ perr, testEnv.urlParse (normalizeMirror "http://[") = .error perr →
        lookupV2Endpoints testEnv badCfg "docker.io"
          = ([], some (.invalidParam perr))) ∧
      (∀ u terr, testEnv.urlParse (normalizeMirror "http://[") = .ok u →
        testEnv.newTLSConfig u.host (badCfg.secureIndex u.host)
          = .error terr →
        lookupV2Endpoints testEnv badCfg "docker.io"
          = ([], some (.configuration terr))) ∧
      (∀ es e, lookupV2Endpoints testEnv badCfg "docker.io" = (es, some e) →
        es = [])) :=
  ⟨⟨by decide, by decide, rfl⟩,
    lookup_mirror_error_aborts testEnv badCfg "docker.io" (by decide)
      [] "http://[" [] (by decide) [] rfl⟩

/-- Closed-input instantiation of C7 at a concrete mirror endpoint. -/
theorem lookup_mirror_official_exclusive_witness :
    wMirrorEp ∈ (lookupV2Endpoints testEnv testCfg "docker.io").1 ∧
    (¬(wMirrorEp.mirror = true ∧ wMirrorEp.official = true) ∧
      ((wMirrorEp.mirror = true ∨ wMirrorEp.official = true) →
        wMirrorEp.trimHostname = true)) :=
  ⟨by decide,
    lookup_mirror_official_exclusive testEnv testCfg "docker.io" wMirrorEp
      (by decide)⟩

/-- Closed-input instantiation of C8 on two pointwise-equal snapshots. -/
theorem lookup_deterministic_witness :
    (testCfg.mirrors = testCfg2.mirrors ∧
      (∀ h, testCfg.secureIndex h = testCfg2.secureIndex h) ∧
      (∀ h, testCfg.allowNondistributable h
        = testCfg2.allowNondistributable h) ∧
      (∀ s, testEnv.urlParse s = testEnv2.urlParse s) ∧
      (∀ h b, testEnv.newTLSConfig h b = testEnv2.newTLSConfig h b) ∧
      testEnv.serverDefault = testEnv2.serverDefault ∧
      testEnv.defaultV2Registry = testEnv2.defaultV2Registry) ∧
    lookupV2Endpoints testEnv testCfg "docker.io"
      = lookupV2Endpoints testEnv2 testCfg2 "docker.io" :=
  ⟨⟨by decide,
    fun h => by
      by_cases hh : h = "secure.test" <;> simp [testCfg, testCfg2, hh],
    fun h => rfl, fun s => rfl, fun h b => rfl, by decide, rfl⟩,
    lookup_deterministic testEnv testEnv2 testCfg testCfg2 "docker.io"
      (by decide)
      (fun h => by
        by_cases hh : h = "secure.test" <;> simp [testCfg, testCfg2, hh])
      (fun h => rfl) (fun s => rfl) (fun h b => rfl) (by decide) rfl⟩

/-- Closed-input instantiation of C9 at the plaintext mirror address. -/
theorem lookup_http_mirror_kept_witness :
    (("docker.io" = DefaultNamespace ∨ "docker.io" = IndexHostname) ∧
      httpCfg.mirrors = ["http://mirror.test"] ∧
      goHasPrefix "http://mirror.test" "http://" = true ∧
      testEnv.urlParse "http://mirror.test"
        = .ok { scheme := "http", host := "mirror.test" } ∧
      testEnv.newTLSConfig "mirror.test" (httpCfg.secureIndex "mirror.test")
        = .ok { insecureSkipVerify := true }) ∧
    (normalizeMirror "http://mirror.test" = "http://mirror.test" ∧
     lookupV2Endpoints testEnv httpCfg "docker.io" =
       ([{ url := { scheme := "http", host := "mirror.test" }, version := 2,
           mirror := true, trimHostname := true,
           tlsConfig := { insecureSkipVerify := true } },
         officialEndpoint testEnv], none) ∧
     ((lookupV2Endpoints testEnv httpCfg "docker.io").1.head?.map
        (fun ep => ep.url.scheme) = some "http")) :=
  ⟨⟨by decide, by decide, by decide, rfl, rfl⟩,
    lookup_http_mirror_kept testEnv httpCfg "docker.io" "http://mirror.test"
      { scheme := "http", host := "mirror.test" }
      { insecureSkipVerify := true }
      (by decide) (by decide) (by decide) rfl rfl rfl⟩

/-- Closed-input instantiation of C10 at the custom host `custom.test`. -/
theorem lookup_custom_no_invalid_param_witness :
    ("custom.test" ≠ DefaultNamespace ∧ "custom.test" ≠ IndexHostname) ∧
    ((∀ msg, (lookupV2Endpoints testEnv testCfg "custom.test").2
        ≠ some (.invalidParam msg)) ∧
      (∀ e, (lookupV2Endpoints testEnv testCfg "custom.test").2 = some e →
        ∃ msg, e = .configuration msg ∧
          testEnv.newTLSConfig "custom.test"
            (testCfg.secureIndex "custom.test") = .error msg) ∧
      (∀ ep ∈ (lookupV2Endpoints testEnv testCfg "custom.test").1,
        ep.url.host = "custom.test")) :=
  ⟨⟨by decide, by decide⟩,
    lookup_custom_no_invalid_param testEnv testCfg "custom.test" (by decide)
      (by decide)⟩

end RegistryV2
